import Mathlib

/-!
Shallow embedding of the core of `aiodbx` (an asynchronous Dropbox API
client): the request execution engine (`Request._do_request` in
`aiodbx.py` and `RequestContext._do_request` in `aiodbx/__init__.py`)
and the upload-batch state machine (`AsyncDropboxAPI.upload_start`,
`upload_finish`, `_upload_finish_check`).

The HTTP transport is modelled as a function from the (1-based) attempt
number to the response that attempt receives; response bodies are opaque
strings; sleeps are recorded rather than performed.
-/

namespace Aiodbx

/-- HTTP response as seen by `_do_request`: its status code, the optional
integer value of the `Retry-After` header, and the body text. -/
structure Response where
  status : Nat
  retryAfter : Option Nat
  body : String
deriving DecidableEq, Repr

/-- Embeds `DropboxApiError(status, message)` raised by the request layer. -/
structure DropboxApiError where
  status : Nat
  message : String
deriving DecidableEq, Repr

/-- Configuration of `Request.__init__` in `aiodbx.py`: `ok_statuses`,
`retry_count`, `retry_statuses` (defaults `[200]`, `5`, `[429]`). -/
structure RequestConfig where
  ok_statuses : List Nat
  retry_count : Nat
  retry_statuses : List Nat
deriving DecidableEq, Repr

/-- Default configuration of `Request` (`aiodbx.py` lines 34-36). -/
def defaultRequestConfig : RequestConfig :=
  { ok_statuses := [200], retry_count := 5, retry_statuses := [429] }

/-- Configuration of `RequestContext.__init__` in `aiodbx/__init__.py`:
`retry_count`, `retry_statuses`, `accepted_statuses` (defaults `5`,
`[429]`, `[200]`). -/
structure RequestContextConfig where
  retry_count : Nat
  retry_statuses : List Nat
  accepted_statuses : List Nat
deriving DecidableEq, Repr

/-- Default configuration of `RequestContext` (`aiodbx/__init__.py` lines 34-36). -/
def defaultRequestContextConfig : RequestContextConfig :=
  { retry_count := 5, retry_statuses := [429], accepted_statuses := [200] }

/-- Backoff computation of `_do_request` (`aiodbx.py` lines 75-78): the
integer value of the `Retry-After` header when present, else 1 second. -/
def sleep_time (resp : Response) : Nat :=
  match resp.retryAfter with
  | some t => t
  | none => 1

/-- Embeds `Request._do_request` (`aiodbx.py` lines 52-83).  `transport n`
is the response the n-th attempt receives (`await self.request(...)`).
`current_attempt` is the counter value before the `+= 1` at line 53.
On normal return it yields the returned response, the final value of
`current_attempt`, and the list of sleep durations performed (in order);
a raised `DropboxApiError` is the `.error` case.

Control flow copied from the source: the attempt counter is incremented,
the request is sent, then
`if resp.status in self.ok_statuses or resp.status < 400` the response is
logged as OK, `else` a `DropboxApiError(resp.status, await resp.text())`
is raised; afterwards, `if self.current_attempt < self.retry_count and
resp.status in self.retry_statuses`, the executor sleeps and recurses;
otherwise the response is returned. -/
def do_request (cfg : RequestConfig) (transport : Nat → Response)
    (current_attempt : Nat) : Except DropboxApiError (Response × Nat × List Nat) :=
  let resp := transport (current_attempt + 1)
  if resp.status ∈ cfg.ok_statuses ∨ resp.status < 400 then
    if h : current_attempt + 1 < cfg.retry_count ∧ resp.status ∈ cfg.retry_statuses then
      match do_request cfg transport (current_attempt + 1) with
      | .ok (r, n, sleeps) => .ok (r, n, sleep_time resp :: sleeps)
      | .error e => .error e
    else
      .ok (resp, current_attempt + 1, [])
  else
    .error ⟨resp.status, resp.body⟩
termination_by cfg.retry_count - current_attempt
decreasing_by omega

/-- Embeds `RequestContext._do_request` (`aiodbx/__init__.py` lines 50-84).
Same shape as `do_request`; the classification differs textually:
`if resp.status in self.accepted_statuses` the response is logged,
`elif not resp.ok` (i.e. `resp.status >= 400`) a `DropboxApiError` is
raised with the parsed body; then the same retry check follows. -/
def ctx_do_request (cfg : RequestContextConfig) (transport : Nat → Response)
    (current_attempt : Nat) : Except DropboxApiError (Response × Nat × List Nat) :=
  let resp := transport (current_attempt + 1)
  if resp.status ∉ cfg.accepted_statuses ∧ 400 ≤ resp.status then
    .error ⟨resp.status, resp.body⟩
  else
    if h : current_attempt + 1 < cfg.retry_count ∧ resp.status ∈ cfg.retry_statuses then
      match ctx_do_request cfg transport (current_attempt + 1) with
      | .ok (r, n, sleeps) => .ok (r, n, sleep_time resp :: sleeps)
      | .error e => .error e
    else
      .ok (resp, current_attempt + 1, [])
termination_by cfg.retry_count - current_attempt
decreasing_by omega

/-! Upload-batch state machine: `AsyncDropboxAPI.upload_start`,
`upload_finish` and `_upload_finish_check`. -/

/-- Cursor part of the commit entry built by `upload_start`
(`aiodbx.py` lines 260-264): the `session_id` returned by the
upload-session-start endpoint and `offset = os.path.getsize(local_path)`. -/
structure Cursor where
  session_id : String
  offset : Nat
deriving DecidableEq, Repr

/-- Commit-info part of the commit entry built by `upload_start`
(`aiodbx.py` lines 265-270): destination path and the fixed flags
`mode = "add"`, `autorename = False`, `mute = False`. -/
structure CommitInfo where
  path : String
  mode : String
  autorename : Bool
  mute : Bool
deriving DecidableEq, Repr

/-- One `UploadSessionFinishArg` dict appended to `self.upload_session`. -/
structure Commit where
  cursor : Cursor
  commit : CommitInfo
deriving DecidableEq, Repr

/-- Errors of `upload_start`: the `ValueError` for a missing local file,
the `RuntimeError` for a full batch (`aiodbx.py` lines 233-238), or a
`DropboxApiError` propagated from the request layer. -/
inductive StartError where
  | localFileNotFound
  | batchFull
  | api (e : DropboxApiError)
deriving DecidableEq, Repr

/-- Outcome of one `upload_start` call: its result, the `upload_session`
list afterwards, and how many network requests were issued. -/
structure StartOutcome where
  result : Except StartError Commit
  upload_session : List Commit
  network_calls : Nat
deriving Repr

/-- Embeds `AsyncDropboxAPI.upload_start` (`aiodbx.py` lines 228-273;
identically `aiodbx/__init__.py` lines 192-233).  `st` is
`self.upload_session` on entry; `fileExists` is `os.path.exists(local_path)`;
`fileSize` is `os.path.getsize(local_path)`; `transport` is the outcome of
the one POST to `upload_session/start`, giving the `session_id` of the
response JSON on success.

The source checks `os.path.exists` first, then `len(self.upload_session)
>= 1000` (both raise before any request is made), then reads the file,
performs the request, builds the commit dict, appends it to
`self.upload_session` and returns it. -/
def upload_start (st : List Commit) (fileExists : Bool) (fileSize : Nat)
    (dropbox_path : String) (transport : Except DropboxApiError String) :
    StartOutcome :=
  if ¬ fileExists then
    ⟨.error .localFileNotFound, st, 0⟩
  else if 1000 ≤ st.length then
    ⟨.error .batchFull, st, 0⟩
  else
    match transport with
    | .error e => ⟨.error (.api e), st, 1⟩
    | .ok sid =>
      let commit : Commit := ⟨⟨sid, fileSize⟩, ⟨dropbox_path, "add", false, false⟩⟩
      ⟨.ok commit, st ++ [commit], 1⟩

/-- Response JSON of the `finish_batch` submission, discriminated on its
`.tag` field (`aiodbx.py` lines 302-312). `FileMetadata` dicts are opaque
payloads, modelled as strings. -/
inductive FinishResp where
  | complete (entries : List String)
  | asyncJobId (job_id : String)
  | unknown (status : Nat) (body : String)
deriving DecidableEq, Repr

/-- Response JSON of one `finish_batch/check` poll (`aiodbx.py` lines 340-346). -/
inductive CheckResp where
  | complete (entries : List String)
  | inProgress
deriving DecidableEq, Repr

/-- Errors of `upload_finish`: the `RuntimeError` for an empty batch
(`aiodbx.py` lines 280-282), a `DropboxApiError` propagated from the
request layer, or the `DropboxApiError` raised on an unknown `.tag`
(lines 309-312). -/
inductive FinishError where
  | emptyBatch
  | api (e : DropboxApiError)
  | unknownTag (status : Nat) (body : String)
deriving DecidableEq, Repr

/-- Observable events of one `upload_finish` call, in program order. -/
inductive Event where
  | submitRequest
  | clearBatch
  | pollSleep
  | pollRequest
  | ret
  | raised
deriving DecidableEq, Repr

/-- Embeds the loop body of `AsyncDropboxAPI._upload_finish_check`
(`aiodbx.py` lines 331-346): `while True:` sleep `check_interval`, issue
the check request, return the entries on tag `complete`, continue on tag
`in_progress`.  The argument lists the successive check responses; the
returned trace records each sleep and poll request, and the result is
`none` when the given responses never resolve (the loop would still be
running). -/
def upload_finish_check : List CheckResp → List Event × Option (List String)
  | [] => ([], none)
  | .complete es :: _ => ([.pollSleep, .pollRequest], some es)
  | .inProgress :: rest =>
    let (tr, r) := upload_finish_check rest
    (.pollSleep :: .pollRequest :: tr, r)

/-- Outcome of one `upload_finish` call: its result (`none` when the
modelled poll responses never resolve and the loop keeps running), the
`upload_session` list afterwards, and the trace of observable events. -/
structure FinishOutcome where
  result : Option (Except FinishError (List String))
  upload_session : List Commit
  trace : List Event
deriving Repr

/-- Embeds `AsyncDropboxAPI.upload_finish` (`aiodbx.py` lines 275-312;
identically `aiodbx/__init__.py` lines 235-268).  `st` is
`self.upload_session` on entry; `submit` is the outcome of the one POST to
`finish_batch`; `polls` lists the successive responses of the check
endpoint (used only when the submission response is tagged
`async_job_id`).

The source raises `RuntimeError` if `len(self.upload_session) == 0`
before any request; otherwise it submits the batch, and on receiving the
response sets `self.upload_session = []` before dispatching on the
response tag: `async_job_id` enters `_upload_finish_check`, `complete`
returns the entries, anything else raises `DropboxApiError`. -/
def upload_finish (st : List Commit) (submit : Except DropboxApiError FinishResp)
    (polls : List CheckResp) : FinishOutcome :=
  if st.length = 0 then
    ⟨some (.error .emptyBatch), st, [.raised]⟩
  else
    match submit with
    | .error e => ⟨some (.error (.api e)), st, [.submitRequest, .raised]⟩
    | .ok resp =>
      match resp with
      | .asyncJobId _ =>
        let (tr, r) := upload_finish_check polls
        match r with
        | some es =>
          ⟨some (.ok es), [], .submitRequest :: .clearBatch :: tr ++ [.ret]⟩
        | none =>
          ⟨none, [], .submitRequest :: .clearBatch :: tr⟩
      | .complete es =>
        ⟨some (.ok es), [], [.submitRequest, .clearBatch, .ret]⟩
      | .unknown status body =>
        ⟨some (.error (.unknownTag status body)), [],
          [.submitRequest, .clearBatch, .raised]⟩

/-! Interleaving model for concurrent `upload_start` calls.  In the
source, the capacity check `len(self.upload_session) >= 1000`
(`aiodbx.py` line 235) and the append `self.upload_session.append(commit)`
(line 272) are separated by `await` suspension points (`aiofiles.open`,
`f.read`, and the awaited `Request` at lines 250-256), so the event loop
may run another `upload_start` between them.  A task is therefore split
at those suspension points into two atomic segments: the precondition
checks, and the append-and-return. -/

/-- Progress of one in-flight `upload_start` call: `ready` = about to run
the precondition checks (lines 233-238); `uploading` = passed them and is
suspended on the file read / network await (lines 250-256); `done` =
appended its commit and returned; `failed` = raised the batch-full
`RuntimeError`. -/
inductive TaskPhase where
  | ready
  | uploading
  | done
  | failed
deriving DecidableEq, Repr

/-- Runs the next atomic segment of one `upload_start` task against the
shared `upload_session` list (the file is assumed to exist): from `ready`,
the capacity check, which either raises (`failed`) or proceeds to the
awaited I/O (`uploading`); from `uploading`, the append of the task's
commit.  Finished tasks do nothing. -/
def task_step (st : List Commit) (ph : TaskPhase) (c : Commit) :
    TaskPhase × List Commit :=
  match ph with
  | .ready => if 1000 ≤ st.length then (.failed, st) else (.uploading, st)
  | .uploading => (.done, st ++ [c])
  | .done => (.done, st)
  | .failed => (.failed, st)

/-- Shared state of two concurrent `upload_start` calls on one
`AsyncDropboxAPI` instance: the shared `upload_session` list and each
task's phase. -/
structure ConcState where
  upload_session : List Commit
  task1 : TaskPhase
  task2 : TaskPhase
deriving DecidableEq, Repr

/-- Runs the next atomic segment of task 1 (`false`) or task 2 (`true`),
where `c1`, `c2` are the commits the two calls build. -/
def sched_step (c1 c2 : Commit) (st : ConcState) (pick : Bool) : ConcState :=
  if pick then
    let (ph, sess) := task_step st.upload_session st.task2 c2
    ⟨sess, st.task1, ph⟩
  else
    let (ph, sess) := task_step st.upload_session st.task1 c1
    ⟨sess, ph, st.task2⟩

/-- Runs a schedule: the cooperative scheduler's sequence of choices of
which task runs its next atomic segment. -/
def run_sched (c1 c2 : Commit) (st : ConcState) : List Bool → ConcState
  | [] => st
  | pick :: rest => run_sched c1 c2 (sched_step c1 c2 st pick) rest

/-! Shared sample data and helper lemmas. -/

/-- Sample commit entry used by concrete witnesses. -/
def sampleCommit : Commit := ⟨⟨"sid0", 3⟩, ⟨"/dest", "add", false, false⟩⟩

/-- Helper: once `upload_finish` has received a submission response (the
submission did not raise), the `upload_session` afterwards is empty and
the trace starts with the submission request immediately followed by the
clearing of the batch. -/
theorem upload_finish_ok_clears (st : List Commit) (resp : FinishResp)
    (polls : List CheckResp) (hne : st ≠ []) :
    (upload_finish st (.ok resp) polls).upload_session = [] ∧
    ∃ rest, (upload_finish st (.ok resp) polls).trace =
      Event.submitRequest :: Event.clearBatch :: rest := by
  have hz : ¬ st.length = 0 := by simpa [List.length_eq_zero] using hne
  cases resp with
  | complete es => simp [upload_finish, hz]
  | unknown status body => simp [upload_finish, hz]
  | asyncJobId job =>
    simp only [upload_finish, hz, if_false, if_neg hz]
    rcases h : upload_finish_check polls with ⟨tr, r⟩
    cases r <;> simp

/-- Helper: `upload_finish` on an empty batch raises the empty-batch
`RuntimeError` before doing anything: no request, batch untouched. -/
theorem upload_finish_nil (submit : Except DropboxApiError FinishResp)
    (polls : List CheckResp) :
    upload_finish [] submit polls =
      ⟨some (.error .emptyBatch), [], [.raised]⟩ := by
  simp [upload_finish]

/-! Claim theorems about the upload-batch state machine. -/

/-- C3: whenever `upload_finish` receives any response to its submission
request — whether the response tag is `complete`, `async_job_id` or
unknown — the `upload_session` batch is cleared to empty before any
polling occurs and before the call returns or raises (in the trace, the
clearing event immediately follows the submission request, so every poll
request and the terminal return/raise come after it), and the session
list afterwards is empty, so a new batch can be accepted while the
previous batch's result is still pending. -/
theorem upload_finish_clears_batch_on_any_response (st : List Commit)
    (resp : FinishResp) (polls : List CheckResp) (hne : st ≠ []) :
    (upload_finish st (.ok resp) polls).upload_session = [] ∧
    ∃ rest, (upload_finish st (.ok resp) polls).trace =
      Event.submitRequest :: Event.clearBatch :: rest :=
  upload_finish_ok_clears st resp polls hne

/-- Witness for C3 at a concrete input: a one-entry batch whose
submission response is tagged `async_job_id` resolving after one poll. -/
theorem upload_finish_clears_batch_on_any_response_witness :
    [sampleCommit] ≠ ([] : List Commit) ∧
    (upload_finish [sampleCommit] (.ok (.asyncJobId "job"))
      [.complete ["meta"]]).upload_session = [] :=
  ⟨by decide,
    (upload_finish_clears_batch_on_any_response [sampleCommit]
      (.asyncJobId "job") [.complete ["meta"]] (by decide)).1⟩

/-- C5: with the local file existing, for every batch of length at most
999 `upload_start` succeeds (given the upload-session request succeeds),
returning the constructed commit entry and growing the batch by exactly
one; and for every batch of length 1000 it fails with the batch-full
`RuntimeError`, issues no network request, and leaves the batch
unchanged, whatever the transport would have answered. -/
theorem upload_start_capacity (st : List Commit) (fileSize : Nat)
    (dropbox_path sid : String) (hlen : st.length ≤ 999) :
    ((upload_start st true fileSize dropbox_path (.ok sid)).result =
        .ok ⟨⟨sid, fileSize⟩, ⟨dropbox_path, "add", false, false⟩⟩ ∧
      (upload_start st true fileSize dropbox_path (.ok sid)).upload_session.length =
        st.length + 1) ∧
    ∀ full : List Commit, full.length = 1000 →
      ∀ t : Except DropboxApiError String,
        (upload_start full true fileSize dropbox_path t).result = .error .batchFull ∧
        (upload_start full true fileSize dropbox_path t).network_calls = 0 ∧
        (upload_start full true fileSize dropbox_path t).upload_session = full := by
  constructor
  · have hlt : ¬ 1000 ≤ st.length := by omega
    simp [upload_start, hlt]
  · intro full hfull t
    have hge : 1000 ≤ full.length := by omega
    simp [upload_start, hge]

/-- Witness for C5 at a concrete input: the empty batch grows to one
entry. -/
theorem upload_start_capacity_witness :
    ([] : List Commit).length ≤ 999 ∧
    (upload_start [] true 3 "/dest" (.ok "sid0")).upload_session.length =
      ([] : List Commit).length + 1 :=
  ⟨by decide, (upload_start_capacity [] 3 "/dest" "sid0" (by decide)).1.2⟩

/-- C6: `upload_finish` on an empty batch fails with the empty-batch
`RuntimeError` and issues no network request (no submission request in
its trace, batch left empty); and calling `upload_finish` twice
consecutively — the first call on a non-empty batch receiving a
submission response — makes the second call fail the same way, because
the first call emptied the batch. -/
theorem upload_finish_empty_batch_fails (st : List Commit) (resp : FinishResp)
    (polls polls2 : List CheckResp) (submit2 : Except DropboxApiError FinishResp)
    (hne : st ≠ []) :
    (∀ submit : Except DropboxApiError FinishResp, ∀ polls0 : List CheckResp,
      (upload_finish [] submit polls0).result = some (.error .emptyBatch) ∧
      (upload_finish [] submit polls0).upload_session = [] ∧
      Event.submitRequest ∉ (upload_finish [] submit polls0).trace) ∧
    (upload_finish (upload_finish st (.ok resp) polls).upload_session
      submit2 polls2).result = some (.error .emptyBatch) := by
  constructor
  · intro submit polls0
    rw [upload_finish_nil]
    refine ⟨rfl, rfl, by decide⟩
  · rw [(upload_finish_ok_clears st resp polls hne).1, upload_finish_nil]

/-- Witness for C6 at a concrete input: finishing a one-entry batch twice
in a row. -/
theorem upload_finish_empty_batch_fails_witness :
    [sampleCommit] ≠ ([] : List Commit) ∧
    (upload_finish (upload_finish [sampleCommit] (.ok (.complete ["meta"]))
      []).upload_session (.ok (.complete ["meta2"])) []).result =
      some (.error .emptyBatch) :=
  ⟨by decide,
    (upload_finish_empty_batch_fails [sampleCommit] (.complete ["meta"]) []
      [] (.ok (.complete ["meta2"])) (by decide)).2⟩

/-- C10: if the batch-finish submission request itself raises a
`DropboxApiError` (no submission response obtained), `upload_finish`
propagates the error and leaves `upload_session` unchanged, so a failed
submission can be retried with the same batch contents. -/
theorem upload_finish_submit_error_keeps_batch (st : List Commit)
    (e : DropboxApiError) (polls : List CheckResp) (hne : st ≠ []) :
    (upload_finish st (.error e) polls).result = some (.error (.api e)) ∧
    (upload_finish st (.error e) polls).upload_session = st := by
  have hz : ¬ st.length = 0 := by simpa [List.length_eq_zero] using hne
  simp [upload_finish, hz]

/-- Witness for C10 at a concrete input: a rate-limit error on the
submission of a one-entry batch. -/
theorem upload_finish_submit_error_keeps_batch_witness :
    [sampleCommit] ≠ ([] : List Commit) ∧
    (upload_finish [sampleCommit] (.error ⟨429, "rate limited"⟩)
      []).upload_session = [sampleCommit] :=
  ⟨by decide,
    (upload_finish_submit_error_keeps_batch [sampleCommit]
      ⟨429, "rate limited"⟩ [] (by decide)).2⟩

/-- C4 counterexample: with a submission response tagged `async_job_id`
and check responses `in_progress`, `in_progress`, `complete`, the call
does return the final metadata, but it performs 3 poll-interval sleeps,
not 2 as claimed: the loop body sleeps before every check request,
including the first. -/
theorem upload_finish_three_polls_counterexample :
    (upload_finish [sampleCommit] (.ok (.asyncJobId "job"))
      [.inProgress, .inProgress, .complete ["meta"]]).result = some (.ok ["meta"]) ∧
    (upload_finish [sampleCommit] (.ok (.asyncJobId "job"))
      [.inProgress, .inProgress, .complete ["meta"]]).trace.count Event.pollSleep = 3 ∧
    ¬ (upload_finish [sampleCommit] (.ok (.asyncJobId "job"))
      [.inProgress, .inProgress, .complete ["meta"]]).trace.count Event.pollSleep = 2 := by
  refine ⟨rfl, by decide, by decide⟩

/-- C4 amended: if the submission response is tagged `async_job_id` and
the check endpoint returns `in_progress`, `in_progress`, `complete` on
its three successive queries, `upload_finish` returns the final metadata
list after exactly 3 sleeps of the poll interval (one before every check
request, including the first), and the batch is already empty before the
first poll request is issued (the clearing event directly follows the
submission request in the trace). -/
theorem upload_finish_async_three_sleeps (st : List Commit) (job : String)
    (es : List String) (hne : st ≠ []) :
    (upload_finish st (.ok (.asyncJobId job))
      [.inProgress, .inProgress, .complete es]).result = some (.ok es) ∧
    (upload_finish st (.ok (.asyncJobId job))
      [.inProgress, .inProgress, .complete es]).trace.count Event.pollSleep = 3 ∧
    (upload_finish st (.ok (.asyncJobId job))
      [.inProgress, .inProgress, .complete es]).upload_session = [] ∧
    (upload_finish st (.ok (.asyncJobId job))
      [.inProgress, .inProgress, .complete es]).trace =
      [Event.submitRequest, Event.clearBatch, Event.pollSleep, Event.pollRequest,
        Event.pollSleep, Event.pollRequest, Event.pollSleep, Event.pollRequest,
        Event.ret] := by
  have hz : ¬ st.length = 0 := by simpa [List.length_eq_zero] using hne
  refine ⟨?_, ?_, ?_, ?_⟩ <;>
    simp [upload_finish, upload_finish_check, hz, List.count_cons]

/-- Witness for the amended C4 at a concrete input. -/
theorem upload_finish_async_three_sleeps_witness :
    [sampleCommit] ≠ ([] : List Commit) ∧
    (upload_finish [sampleCommit] (.ok (.asyncJobId "job"))
      [.inProgress, .inProgress, .complete ["meta"]]).trace.count Event.pollSleep = 3 :=
  ⟨by decide,
    (upload_finish_async_three_sleeps [sampleCommit] "job" ["meta"]
      (by decide)).2.1⟩

/-- Helper: running the schedule check-1, check-2, append-1, append-2 of
two concurrent `upload_start` calls on a batch of 999 entries lets both
pass the capacity check (each still sees 999 entries) and append, ending
with both tasks done and the batch grown by two entries. -/
theorem run_sched_both_pass (st : List Commit) (c1 c2 : Commit)
    (hlen : st.length = 999) :
    run_sched c1 c2 ⟨st, .ready, .ready⟩ [false, true, false, true] =
      ⟨(st ++ [c1]) ++ [c2], .done, .done⟩ := by
  have hlt : ¬ 1000 ≤ st.length := by omega
  have h1 : sched_step c1 c2 ⟨st, .ready, .ready⟩ false =
      ⟨st, .uploading, .ready⟩ := by
    simp [sched_step, task_step, hlt]
  have h2 : sched_step c1 c2 ⟨st, .uploading, .ready⟩ true =
      ⟨st, .uploading, .uploading⟩ := by
    simp [sched_step, task_step, hlt]
  have h3 : sched_step c1 c2 ⟨st, .uploading, .uploading⟩ false =
      ⟨st ++ [c1], .done, .uploading⟩ := by
    simp [sched_step, task_step]
  have h4 : sched_step c1 c2 ⟨st ++ [c1], .done, .uploading⟩ true =
      ⟨(st ++ [c1]) ++ [c2], .done, .done⟩ := by
    simp [sched_step, task_step]
  simp only [run_sched, h1, h2, h3, h4]

/-- C8 counterexample: the capacity check and the append in
`upload_start` are not one atomic step.  From a batch holding 999
entries, the interleaving in which both concurrent calls run their
capacity check (both see 999 < 1000 and pass) before either appends
leaves both calls completed and the batch at 1001 entries — past the
1000-entry capacity. -/
theorem upload_start_interleaving_counterexample :
    (run_sched sampleCommit sampleCommit
      ⟨List.replicate 999 sampleCommit, .ready, .ready⟩
      [false, true, false, true]).task1 = .done ∧
    (run_sched sampleCommit sampleCommit
      ⟨List.replicate 999 sampleCommit, .ready, .ready⟩
      [false, true, false, true]).task2 = .done ∧
    (run_sched sampleCommit sampleCommit
      ⟨List.replicate 999 sampleCommit, .ready, .ready⟩
      [false, true, false, true]).upload_session.length = 1001 := by
  rw [run_sched_both_pass _ _ _ (by rw [List.length_replicate])]
  refine ⟨rfl, rfl, ?_⟩
  simp only [List.length_append, List.length_replicate, List.length_cons,
    List.length_nil]

/-- C8 amended: the capacity check and the append are not executed as one
atomic step — they are separated by awaited file and network I/O with no
lock — so for every batch holding 999 entries there is an interleaving of
two concurrent `upload_start` calls in which both pass the capacity check
and together push the batch to 1001 entries, past the 1000-entry
capacity, with both calls completing successfully. -/
theorem upload_start_check_append_not_atomic (st : List Commit)
    (c1 c2 : Commit) (hlen : st.length = 999) :
    (run_sched c1 c2 ⟨st, .ready, .ready⟩ [false, true, false, true]).task1 = .done ∧
    (run_sched c1 c2 ⟨st, .ready, .ready⟩ [false, true, false, true]).task2 = .done ∧
    (run_sched c1 c2 ⟨st, .ready, .ready⟩
      [false, true, false, true]).upload_session.length = 1001 := by
  rw [run_sched_both_pass st c1 c2 hlen]
  refine ⟨rfl, rfl, ?_⟩
  simp [hlen]

/-- Witness for the amended C8 at a concrete input. -/
theorem upload_start_check_append_not_atomic_witness :
    (List.replicate 999 sampleCommit).length = 999 ∧
    (run_sched sampleCommit sampleCommit
      ⟨List.replicate 999 sampleCommit, .ready, .ready⟩
      [false, true, false, true]).upload_session.length = 1001 :=
  ⟨by rw [List.length_replicate], (upload_start_check_append_not_atomic
      (List.replicate 999 sampleCommit)
      sampleCommit sampleCommit (by rw [List.length_replicate])).2.2⟩

/-! Helper lemmas about the request executors. -/

/-- Helper: every `DropboxApiError` raised by `do_request` is built from
some attempt's response whose status is outside `ok_statuses` and at
least 400 (the raise at `aiodbx.py` line 72 is the only error source). -/
theorem do_request_error_status (cfg : RequestConfig) (transport : Nat → Response) :
    ∀ k a e, cfg.retry_count - a ≤ k → do_request cfg transport a = .error e →
      ∃ n, e = ⟨(transport n).status, (transport n).body⟩ ∧
        (transport n).status ∉ cfg.ok_statuses ∧ 400 ≤ (transport n).status := by
  intro k
  induction k with
  | zero =>
    intro a e hk he
    rw [do_request.eq_def] at he
    simp only [] at he
    by_cases hok : (transport (a + 1)).status ∈ cfg.ok_statuses ∨
        (transport (a + 1)).status < 400
    · rw [if_pos hok] at he
      rw [dif_neg (fun hc => by omega)] at he
      exact absurd he (by simp)
    · rw [if_neg hok] at he
      refine ⟨a + 1, ?_, fun hmem => hok (Or.inl hmem), ?_⟩
      · cases he; rfl
      · by_contra hlt
        exact hok (Or.inr (by omega))
  | succ k ih =>
    intro a e hk he
    rw [do_request.eq_def] at he
    simp only [] at he
    by_cases hok : (transport (a + 1)).status ∈ cfg.ok_statuses ∨
        (transport (a + 1)).status < 400
    · rw [if_pos hok] at he
      by_cases hcond : a + 1 < cfg.retry_count ∧
          (transport (a + 1)).status ∈ cfg.retry_statuses
      · rw [dif_pos hcond] at he
        cases hrec : do_request cfg transport (a + 1) with
        | error e0 =>
          rw [hrec] at he
          simp only [] at he
          cases he
          exact ih (a + 1) _ (by omega) hrec
        | ok v =>
          obtain ⟨r, n, sleeps⟩ := v
          rw [hrec] at he
          exact absurd he (by simp)
      · rw [dif_neg hcond] at he
        exact absurd he (by simp)
    · rw [if_neg hok] at he
      refine ⟨a + 1, ?_, fun hmem => hok (Or.inl hmem), ?_⟩
      · cases he; rfl
      · by_contra hlt
        exact hok (Or.inr (by omega))

/-- Helper: every `DropboxApiError` raised by `ctx_do_request` is built
from some attempt's response whose status is outside `accepted_statuses`
and at least 400 (the raise at `aiodbx/__init__.py` line 73 is the only
error source). -/
theorem ctx_do_request_error_status (cfg : RequestContextConfig)
    (transport : Nat → Response) :
    ∀ k a e, cfg.retry_count - a ≤ k → ctx_do_request cfg transport a = .error e →
      ∃ n, e = ⟨(transport n).status, (transport n).body⟩ ∧
        (transport n).status ∉ cfg.accepted_statuses ∧ 400 ≤ (transport n).status := by
  intro k
  induction k with
  | zero =>
    intro a e hk he
    rw [ctx_do_request.eq_def] at he
    simp only [] at he
    by_cases herr : (transport (a + 1)).status ∉ cfg.accepted_statuses ∧
        400 ≤ (transport (a + 1)).status
    · rw [if_pos herr] at he
      cases he
      exact ⟨a + 1, rfl, herr.1, herr.2⟩
    · rw [if_neg herr] at he
      rw [dif_neg (fun hc => by omega)] at he
      exact absurd he (by simp)
  | succ k ih =>
    intro a e hk he
    rw [ctx_do_request.eq_def] at he
    simp only [] at he
    by_cases herr : (transport (a + 1)).status ∉ cfg.accepted_statuses ∧
        400 ≤ (transport (a + 1)).status
    · rw [if_pos herr] at he
      cases he
      exact ⟨a + 1, rfl, herr.1, herr.2⟩
    · rw [if_neg herr] at he
      by_cases hcond : a + 1 < cfg.retry_count ∧
          (transport (a + 1)).status ∈ cfg.retry_statuses
      · rw [dif_pos hcond] at he
        cases hrec : ctx_do_request cfg transport (a + 1) with
        | error e0 =>
          rw [hrec] at he
          simp only [] at he
          cases he
          exact ih (a + 1) _ (by omega) hrec
        | ok v =>
          obtain ⟨r, n, sleeps⟩ := v
          rw [hrec] at he
          exact absurd he (by simp)
      · rw [dif_neg hcond] at he
        exact absurd he (by simp)

/-- Helper: when every attempt's response classifies as OK and is
retryable, `do_request` retries until `current_attempt` reaches
`retry_count` and then returns the last response with the final attempt
counter equal to `retry_count`. -/
theorem do_request_all_retryable (cfg : RequestConfig) (transport : Nat → Response)
    (hok : ∀ n, (transport n).status ∈ cfg.ok_statuses ∨ (transport n).status < 400)
    (hretry : ∀ n, (transport n).status ∈ cfg.retry_statuses) :
    ∀ k a, cfg.retry_count = a + k → 1 ≤ k →
      ∃ sleeps, do_request cfg transport a =
        .ok (transport cfg.retry_count, cfg.retry_count, sleeps) := by
  intro k
  induction k with
  | zero => intro a hrc h1; omega
  | succ k ih =>
    intro a hrc h1
    rcases Nat.eq_zero_or_pos k with hk0 | hk1
    · subst hk0
      refine ⟨[], ?_⟩
      rw [do_request.eq_def]
      rw [if_pos (hok (a + 1))]
      rw [dif_neg (by omega)]
      have ha : a + 1 = cfg.retry_count := by omega
      rw [ha]
    · obtain ⟨sleeps, hs⟩ := ih (a + 1) (by omega) hk1
      refine ⟨sleep_time (transport (a + 1)) :: sleeps, ?_⟩
      rw [do_request.eq_def]
      rw [if_pos (hok (a + 1))]
      rw [dif_pos ⟨by omega, hretry (a + 1)⟩]
      rw [hs]

/-- Helper: the analogue of `do_request_all_retryable` for
`ctx_do_request`. -/
theorem ctx_do_request_all_retryable (cfg : RequestContextConfig)
    (transport : Nat → Response)
    (hok : ∀ n, (transport n).status ∈ cfg.accepted_statuses ∨ (transport n).status < 400)
    (hretry : ∀ n, (transport n).status ∈ cfg.retry_statuses) :
    ∀ k a, cfg.retry_count = a + k → 1 ≤ k →
      ∃ sleeps, ctx_do_request cfg transport a =
        .ok (transport cfg.retry_count, cfg.retry_count, sleeps) := by
  intro k
  induction k with
  | zero => intro a hrc h1; omega
  | succ k ih =>
    intro a hrc h1
    have herr : ¬ ((transport (a + 1)).status ∉ cfg.accepted_statuses ∧
        400 ≤ (transport (a + 1)).status) := by
      rcases hok (a + 1) with h | h
      · exact fun hc => hc.1 h
      · exact fun hc => by omega
    rcases Nat.eq_zero_or_pos k with hk0 | hk1
    · subst hk0
      refine ⟨[], ?_⟩
      rw [ctx_do_request.eq_def]
      rw [if_neg herr]
      rw [dif_neg (by omega)]
      have ha : a + 1 = cfg.retry_count := by omega
      rw [ha]
    · obtain ⟨sleeps, hs⟩ := ih (a + 1) (by omega) hk1
      refine ⟨sleep_time (transport (a + 1)) :: sleeps, ?_⟩
      rw [ctx_do_request.eq_def]
      rw [if_neg herr]
      rw [dif_pos ⟨by omega, hretry (a + 1)⟩]
      rw [hs]

/-! Claim theorems about the request executors. -/

/-- C1 (code-bug evidence): under the default configuration a response
with status 429 — in the retryable set, with attempts remaining — does
not lead to a retry: both executors raise `DropboxApiError(429, body)`
on the very first attempt, because the ok/raise classification
(`aiodbx.py` lines 67-72, `aiodbx/__init__.py` lines 70-73) runs before
the retry check and 429 is neither in the ok set nor below 400.  The
claimed precedence (ok, then retry, then error) does not match the code. -/
theorem status_429_raises_before_retry_under_defaults :
    do_request defaultRequestConfig (fun _ => ⟨429, some 2, "too_many_requests"⟩) 0 =
      .error ⟨429, "too_many_requests"⟩ ∧
    ctx_do_request defaultRequestContextConfig
      (fun _ => ⟨429, some 2, "too_many_requests"⟩) 0 =
      .error ⟨429, "too_many_requests"⟩ := by
  constructor
  · simp [do_request, defaultRequestConfig]
  · simp [ctx_do_request, defaultRequestContextConfig]

/-- Transport of the C2 scenario: attempts 1 and 2 receive status 429
with header `Retry-After: 2`, attempt 3 and later receive status 200. -/
def retryAfterTransport : Nat → Response := fun n =>
  if n ≤ 2 then ⟨429, some 2, "too_many_requests"⟩ else ⟨200, none, "ok"⟩

/-- C2 (code-bug evidence): in the claimed scenario (429 with
`Retry-After: 2` twice, then 200, default configuration) neither
executor sleeps or returns the 200 response at attempt 3; both raise
`DropboxApiError(429, body)` on attempt 1, because the error raise
precedes the retry/backoff branch.  The backoff computation itself does
follow the claim: `sleep_time` is the integer `Retry-After` value when
the header is present and 1 second otherwise. -/
theorem retry_after_scenario_raises_instead_of_retrying :
    do_request defaultRequestConfig retryAfterTransport 0 =
      .error ⟨429, "too_many_requests"⟩ ∧
    ctx_do_request defaultRequestContextConfig retryAfterTransport 0 =
      .error ⟨429, "too_many_requests"⟩ ∧
    sleep_time ⟨429, some 2, "too_many_requests"⟩ = 2 ∧
    sleep_time ⟨429, none, "too_many_requests"⟩ = 1 := by
  refine ⟨?_, ?_, rfl, rfl⟩
  · simp [do_request, retryAfterTransport, defaultRequestConfig]
  · simp [ctx_do_request, retryAfterTransport, defaultRequestContextConfig]

/-- C7: if every attempt's response classifies as success (so the
executor never raises) while its status is in the retryable set, the
attempt counter reaches `retry_count` and the executor returns that last
response as-is — exhausted-retryable surfaces as a returned response,
never as a raised `DropboxApiError`.  Stated for both executors. -/
theorem exhausted_retryable_returns_last_response (cfg : RequestConfig)
    (ccfg : RequestContextConfig) (transport : Nat → Response)
    (hrc : 1 ≤ cfg.retry_count) (hcrc : 1 ≤ ccfg.retry_count)
    (hok : ∀ n, (transport n).status ∈ cfg.ok_statuses ∨ (transport n).status < 400)
    (hacc : ∀ n, (transport n).status ∈ ccfg.accepted_statuses ∨ (transport n).status < 400)
    (hretry : ∀ n, (transport n).status ∈ cfg.retry_statuses)
    (hcretry : ∀ n, (transport n).status ∈ ccfg.retry_statuses) :
    (∃ sleeps, do_request cfg transport 0 =
      .ok (transport cfg.retry_count, cfg.retry_count, sleeps)) ∧
    (∃ sleeps, ctx_do_request ccfg transport 0 =
      .ok (transport ccfg.retry_count, ccfg.retry_count, sleeps)) :=
  ⟨do_request_all_retryable cfg transport hok hretry cfg.retry_count 0 (by omega) hrc,
   ctx_do_request_all_retryable ccfg transport hacc hcretry ccfg.retry_count 0
     (by omega) hcrc⟩

/-- Witness for C7 at a concrete input: status 302 (below 400, hence
success-classified) configured as retryable; after the 5 allowed
attempts the 302 response is returned with the counter at 5. -/
theorem exhausted_retryable_returns_last_response_witness :
    1 ≤ (5 : Nat) ∧
    (∃ sleeps, do_request ⟨[200], 5, [302]⟩ (fun _ => ⟨302, none, "redirect"⟩) 0 =
      .ok (⟨302, none, "redirect"⟩, 5, sleeps)) :=
  ⟨by decide,
    (exhausted_retryable_returns_last_response ⟨[200], 5, [302]⟩ ⟨5, [302], [200]⟩
      (fun _ => ⟨302, none, "redirect"⟩) (by decide) (by decide)
      (fun _ => Or.inr (of_decide_eq_true rfl)) (fun _ => Or.inr (of_decide_eq_true rfl))
      (fun _ => by simp) (fun _ => by simp)).1⟩

/-- C9: a response whose status is below 400 never makes either executor
raise a `DropboxApiError`, even when the status is not in the configured
ok set; dually, any raised `DropboxApiError` carries a status of 400 or
more that is outside the configured ok set. -/
theorem below_400_success_only_above_400_errors (cfg : RequestConfig)
    (ccfg : RequestContextConfig) (transport : Nat → Response)
    (hlt : ∀ n, (transport n).status < 400) :
    (∀ e, ¬ do_request cfg transport 0 = .error e) ∧
    (∀ e, ¬ ctx_do_request ccfg transport 0 = .error e) ∧
    (∀ tr : Nat → Response, ∀ e, do_request cfg tr 0 = .error e →
      400 ≤ e.status ∧ e.status ∉ cfg.ok_statuses) ∧
    (∀ tr : Nat → Response, ∀ e, ctx_do_request ccfg tr 0 = .error e →
      400 ≤ e.status ∧ e.status ∉ ccfg.accepted_statuses) := by
  refine ⟨?_, ?_, ?_, ?_⟩
  · intro e he
    obtain ⟨n, -, -, hge⟩ :=
      do_request_error_status cfg transport cfg.retry_count 0 e (by omega) he
    exact absurd (hlt n) (by omega)
  · intro e he
    obtain ⟨n, -, -, hge⟩ :=
      ctx_do_request_error_status ccfg transport ccfg.retry_count 0 e (by omega) he
    exact absurd (hlt n) (by omega)
  · intro tr e he
    obtain ⟨n, heq, hmem, hge⟩ :=
      do_request_error_status cfg tr cfg.retry_count 0 e (by omega) he
    subst heq
    exact ⟨hge, hmem⟩
  · intro tr e he
    obtain ⟨n, heq, hmem, hge⟩ :=
      ctx_do_request_error_status ccfg tr ccfg.retry_count 0 e (by omega) he
    subst heq
    exact ⟨hge, hmem⟩

/-- Witness for C9 at a concrete input: a constant 302 transport (302 is
not in the default ok set `[200]`) never errors, and the error raised on
a constant 404 transport carries status 404 ≥ 400 outside the ok set. -/
theorem below_400_success_only_above_400_errors_witness :
    (∀ n : Nat, ((fun _ : Nat => (⟨302, none, "redirect"⟩ : Response)) n).status < 400) ∧
    (400 ≤ (⟨404, "not_found"⟩ : DropboxApiError).status ∧
      (⟨404, "not_found"⟩ : DropboxApiError).status ∉ defaultRequestConfig.ok_statuses) :=
  ⟨fun _ => of_decide_eq_true rfl,
    (below_400_success_only_above_400_errors defaultRequestConfig
      defaultRequestContextConfig (fun _ => ⟨302, none, "redirect"⟩)
      (fun _ => of_decide_eq_true rfl)).2.2.1
      (fun _ => ⟨404, none, "not_found"⟩) ⟨404, "not_found"⟩
      (by simp [do_request, defaultRequestConfig])⟩

end Aiodbx
